import Mathlib

/-!
Shallow embedding of `scraper_with_translation.py`.

The script scrapes last week's trending papers from a listing page,
fetches each paper's page and extracts its abstract, translates the
abstract through a chat-completion API (bounded retry with exponential
backoff on connectivity failures), and writes a sectioned text report.

External effects are supplied as explicit parameters: the environment
variable, the parsed HTML structure of the listing and detail pages, and
the outcome of each translation-API attempt.  Every `f.write` call of the
script becomes one string appended to a list that models the output file.
-/

namespace Scraper

/-- Outcome of one call to `client.chat.completions.create` inside the
`try` block: either a successful completion content, a connectivity-class
exception (the `except (requests.exceptions.ConnectionError,
OpenAI.APIConnectionError)` clause), or any other exception carrying its
rendered message (the `except Exception as e` clause). -/
inductive AttemptOutcome where
  | success (content : String)
  | connError
  | otherError (msg : String)
deriving DecidableEq, Repr

/-- Python's `str.strip()`: the string with leading and trailing
whitespace removed. -/
def strip (s : String) : String :=
  ⟨((s.data.dropWhile Char.isWhitespace).reverse.dropWhile Char.isWhitespace).reverse⟩

/-- `"번역할 텍스트가 없습니다."` — returned when the input text is empty or
whitespace-only. -/
def noTextMsg : String := "번역할 텍스트가 없습니다."

/-- `"OpenAI 클라이언트가 설정되지 않았습니다."` — returned when no client is
configured. -/
def noClientMsg : String := "OpenAI 클라이언트가 설정되지 않았습니다."

/-- `f"번역 중 예상치 못한 오류 발생: {e}"` — returned on a
non-connectivity exception. -/
def unexpectedErrMsg (e : String) : String := "번역 중 예상치 못한 오류 발생: " ++ e

/-- `f"번역 중 오류 발생: {max_retries}번의 시도 후에도 네트워크 연결에 실패했습니다."`
with `max_retries = 3`, returned after the `for` loop exhausts. -/
def exhaustedMsg : String := "번역 중 오류 발생: 3번의 시도 후에도 네트워크 연결에 실패했습니다."

/-- The `for attempt in range(max_retries)` loop of
`translate_text_with_openai`.  `remaining` counts the attempts the loop
has left, `attempt` is the current 0-based attempt index, `delay` is the
current backoff delay, and `sleeps` accumulates the durations passed to
`time.sleep`, in order.  `oracle attempt` is what the API call does on
that attempt.  On success the response content is stripped; on a
connectivity error the loop sleeps `delay`, doubles it (`delay *= 2`) and
retries; on any other exception it returns at once with the formatted
message. -/
def translateLoop (oracle : Nat → AttemptOutcome) :
    Nat → Nat → Nat → List Nat → String × List Nat
  | 0, _, _, sleeps => (exhaustedMsg, sleeps)
  | remaining + 1, attempt, delay, sleeps =>
    match oracle attempt with
    | .success content => (strip content, sleeps)
    | .connError => translateLoop oracle remaining (attempt + 1) (delay * 2) (sleeps ++ [delay])
    | .otherError e => (unexpectedErrMsg e, sleeps)

/-- `translate_text_with_openai(client, text)`.  The `client` flag models
whether an OpenAI client object is configured (`not client` in Python is
`client = false` here).  The guard `if not text or not text.strip()`
holds exactly when the stripped text is empty (an empty string strips to
the empty string).  Returns the resulting string together with the list
of backoff sleeps performed, so that the retry behaviour is observable. -/
def translate_text_with_openai (client : Bool) (text : String)
    (oracle : Nat → AttemptOutcome) : String × List Nat :=
  if strip text = "" then (noTextMsg, [])
  else if client = false then (noClientMsg, [])
  else translateLoop oracle 3 0 2 []

/-! ## Dates

`get_previous_week_info` relies on `datetime`'s proleptic-Gregorian
ordinal and `date.isocalendar()`.  Dates are modelled as ordinal day
numbers (day 1 = January 1 of year 1, a Monday), and the calendar
functions are translated from CPython's `datetime` module, which is the
code the script calls. -/

/-- `_days_before_year(year)` of CPython's `datetime`: number of days
before January 1st of `year`. -/
def dby (year : Nat) : Nat :=
  (year - 1) * 365 + (year - 1) / 4 - (year - 1) / 100 + (year - 1) / 400

/-- The year component of CPython's `_ord2ymd(n)`: successive `divmod`s
by the lengths of the 400-, 100-, 4- and 1-year cycles (146097, 36524,
1461, 365 days), with the end-of-cycle correction when `n1 == 4` or
`n100 == 4` (December 31st of a leap year). -/
def yearOfOrdinal (n : Nat) : Nat :=
  let m := n - 1
  let n400 := m / 146097
  let r1 := m % 146097
  let n100 := r1 / 36524
  let r2 := r1 % 36524
  let n4 := r2 / 1461
  let r3 := r2 % 1461
  let n1 := r3 / 365
  let year := n400 * 400 + 1 + n100 * 100 + n4 * 4 + n1
  if n1 = 4 ∨ n100 = 4 then year - 1 else year

/-- CPython's `_isoweek1monday(year)`: the ordinal of the Monday starting
ISO week 1 of `year`. -/
def isoweek1monday (year : Nat) : Nat :=
  let firstday := dby year + 1
  let firstweekday := (firstday + 6) % 7
  let week1monday := firstday - firstweekday
  if firstweekday > 3 then week1monday + 7 else week1monday

/-- CPython's `date.isocalendar()` on the date with ordinal `n`:
`(ISO year, ISO week, ISO weekday)`.  Python computes
`week, day = divmod(today - week1monday, 7)` with floor division; the
`week < 0` branch is equivalently guarded here by `n < week1monday`, in
which case the subtraction is redone against the previous year (where it
is non-negative, so `Nat` subtraction is exact). -/
def isocalendar (n : Nat) : Nat × Nat × Nat :=
  let year := yearOfOrdinal n
  let week1monday := isoweek1monday year
  if n < week1monday then
    let year' := year - 1
    let week1monday' := isoweek1monday year'
    (year', (n - week1monday') / 7 + 1, (n - week1monday') % 7 + 1)
  else
    let week := (n - week1monday) / 7
    if 52 ≤ week ∧ isoweek1monday (year + 1) ≤ n then
      (year + 1, 0 + 1, (n - week1monday) % 7 + 1)
    else
      (year, week + 1, (n - week1monday) % 7 + 1)

/-- `get_previous_week_info()`: `today - timedelta(days=7)` followed by
`isocalendar()`, keeping the year and week components.  `today` is the
current date as an ordinal. -/
def get_previous_week_info (today : Nat) : Nat × Nat :=
  let last_week_date := today - 7
  ((isocalendar last_week_date).1, (isocalendar last_week_date).2.1)

/-- The Thursday of the Monday-to-Sunday week containing ordinal `n`
(ordinal 1 is a Monday, so `n` has weekday index `(n - 1) % 7`). -/
def thursdayOf (n : Nat) : Nat := n + 3 - (n - 1) % 7

/-- The ISO-8601 (year, week) pair of ordinal `n`, written from the
standard's own characterisation (for the refinement claim about the week
resolver): a date's ISO year is the calendar year of the Thursday of its
week, and its week number is the position of that Thursday among the
Thursdays of that calendar year. -/
def isoYearWeekSpec (n : Nat) : Nat × Nat :=
  let t := thursdayOf n
  let y := yearOfOrdinal t
  (y, (t - dby y - 1) / 7 + 1)

/-! ## HTML structure and the orchestrator

The listing page, the detail pages and the environment are supplied as
explicit data; each xpath call of the script becomes a field holding the
list of nodes (or extracted strings) that the xpath would return. -/

/-- An `h3` node of a listing article: `./a/@href` results and
`./a/text()` results. -/
structure H3Elem where
  hrefs : List String
  texts : List String
deriving DecidableEq, Repr

/-- A fetched paper page: the `text_content()` strings of the nodes
matched by the abstract xpath
`/html/body/div/main/div/section[1]/div/div[2]/div/p`. -/
structure DetailPage where
  abstracts : List String
deriving DecidableEq, Repr

/-- One `article` node of the listing page, together with the outcome of
the network interactions its processing performs: `h3s` is what
`article.xpath(".//h3")` returns; `detail` is the detail-page GET
(`Except.error e` models `requests.get`/`raise_for_status` raising an
exception rendered as `e`); `transOracle` is the behaviour of the
translation endpoint for this entry's abstract. -/
structure Article where
  h3s : List H3Elem
  detail : Except String DetailPage
  transOracle : Nat → AttemptOutcome

/-- The run's environment: the `OPENAI_API_KEY` variable, the listing
fetch outcome (`Except.error e` models `requests.get` or
`raise_for_status` raising, caught by the top-level handler), and
today's date as an ordinal. -/
structure RunEnv where
  apiKey : Option String
  listing : Except String (List Article)
  today : Nat

/-- `setup_api()`: loads `OPENAI_API_KEY`; `if not api_key` (absent or
empty) yields no client.  The returned `Bool` models whether an OpenAI
client object was constructed. -/
def setup_api (apiKey : Option String) : Bool :=
  match apiKey with
  | none => false
  | some k => k != ""

/-- `base_url = "https://huggingface.co"`. -/
def base_url : String := "https://huggingface.co"

/-- `num_papers_to_scrape = 10`. -/
def num_papers_to_scrape : Nat := 10

/-- `f"{year}-W{week:02d}"`. -/
def week_str (year week : Nat) : String :=
  toString year ++ "-W" ++ (if week < 10 then "0" ++ toString week else toString week)

/-- `f"항목 처리 중 오류 발생: {e}"`. -/
def entryError (e : String) : String := "항목 처리 중 오류 발생: " ++ e

/-- `f"--- {i+1}. 항목 처리 실패 ---\n{error_msg}\n\n"`: the failure block
written by the per-entry `except` handler for 0-based index `i`. -/
def failBlock (i : Nat) (errorMsg : String) : String :=
  "--- " ++ toString (i + 1) ++ ". " ++ "항목 처리 실패 ---\n" ++ errorMsg ++ "\n\n"

/-- The body of the per-entry loop, for the article at 0-based index `i`:
the list of strings the iteration writes to the file.  Mirrors the
script's `try`: a missing `h3` raises `IndexError` (`"list index out of
range"`); empty `link_list` or `title_list` raises the `ValueError`; a
failing detail fetch raises after the title and link lines were already
written; each raise is caught by the per-entry `except`, which appends
the failure block. -/
def processArticle (client : Bool) (i : Nat) (article : Article) : List String :=
  match article.h3s.head? with
  | none => [failBlock i (entryError "list index out of range")]
  | some h3 =>
    if h3.hrefs.isEmpty || h3.texts.isEmpty then
      [failBlock i (entryError "h3 태그 안에서 링크나 제목을 찾을 수 없습니다.")]
    else
      let relative_link := h3.hrefs.headD ""
      let title := strip (String.join h3.texts)
      let paper_url := base_url ++ relative_link
      let headerLines := ["--- " ++ toString (i + 1) ++ ". " ++ title ++ " ---\n",
                          "Link: " ++ paper_url ++ "\n\n"]
      match article.detail with
      | .error e => headerLines ++ [failBlock i (entryError e)]
      | .ok page =>
        match page.abstracts.head? with
        | none => headerLines ++ ["초록을 찾을 수 없습니다.\n\n"]
        | some a =>
          let abstract := strip a
          headerLines ++
            ["## Abstract (Original)\n", abstract ++ "\n\n", "## 초록 (Korean)\n",
             (translate_text_with_openai client abstract article.transOracle).1 ++ "\n\n"]

/-- The two header writes of the report file. -/
def headerWrites (ws target_url : String) : List String :=
  ["Hugging Face 주간 인기 논문 Top 10 (" ++ ws ++ ") - 번역본\n",
   "출처: " ++ target_url ++ "\n\n"]

/-- The per-entry blocks produced by `for i, article in
enumerate(paper_articles)`. -/
def entryBlocks (client : Bool) (paper_articles : List Article) : List (List String) :=
  paper_articles.enum.map (fun p => processArticle client p.1 p.2)

/-- Observable outcome of a run of the script. -/
inductive RunResult where
  /-- `setup_api()` returned `None` and the function returned at once. -/
  | abortedNoKey
  /-- the listing fetch raised and the top-level handler reported it. -/
  | fatalRequestError (msg : String)
  /-- the listing had no article nodes: reported, and no file opened. -/
  | noPapers
  /-- the report file was written with the given sequence of writes. -/
  | completed (file : List String)
deriving DecidableEq, Repr

/-- The output file a run produced, if any. -/
def outputFile : RunResult → Option (List String)
  | .completed file => some file
  | _ => none

/-- `scrape_and_translate_papers()`: aborts when `setup_api` yields no
client; resolves last week and fetches the listing (an
`Except.error` is the fatal `requests.exceptions.RequestException`
path); truncates the article nodes to `num_papers_to_scrape`; reports
"no papers" on an empty list before opening the file; otherwise writes
the header and each entry's block in order. -/
def scrape_and_translate_papers (env : RunEnv) : RunResult :=
  let client := setup_api env.apiKey
  if client = false then .abortedNoKey
  else
    let yw := get_previous_week_info env.today
    let ws := week_str yw.1 yw.2
    let target_url := "https://huggingface.co/papers/week/" ++ ws
    match env.listing with
    | .error e => .fatalRequestError ("페이지를 가져오는 데 실패했습니다: " ++ e)
    | .ok articles =>
      let paper_articles := articles.take num_papers_to_scrape
      if paper_articles.isEmpty then .noPapers
      else .completed (headerWrites ws target_url ++ (entryBlocks client paper_articles).flatten)

/-- A sample article whose whole processing succeeds. -/
def sampleArticle : Article where
  h3s := [⟨["/papers/2401.00001"], ["Sample Paper"]⟩]
  detail := .ok ⟨["An abstract."]⟩
  transOracle := fun _ => .success "초록 번역."

/-- An article whose detail-page fetch raises. -/
def failingArticle : Article where
  h3s := [⟨["/papers/2401.00002"], ["Broken Paper"]⟩]
  detail := .error "boom"
  transOracle := fun _ => .success "초록 번역."

/-- An environment with no `OPENAI_API_KEY` but a perfectly scrapable
listing (ordinal 739053 is 2024-06-16). -/
def envNoKey : RunEnv where
  apiKey := none
  listing := .ok [sampleArticle]
  today := 739053

/-- An environment whose first article fails at the detail fetch while
the second is fine. -/
def envEntryFailure : RunEnv where
  apiKey := some "sk-test"
  listing := .ok [failingArticle, sampleArticle]
  today := 739053

/-- An environment whose listing has no article nodes. -/
def envNoArticles : RunEnv where
  apiKey := some "sk-test"
  listing := .ok []
  today := 739053

/-- An article whose heading anchor carries an already-absolute URL. -/
def absoluteHrefArticle : Article where
  h3s := [⟨["https://arxiv.org/abs/2401.00003"], ["Absolute Paper"]⟩]
  detail := .ok ⟨[]⟩
  transOracle := fun _ => .success ""

/-- An environment whose single article fails at the detail fetch
(ordinal 739053 is 2024-06-16, so last week resolves to 2024-W23). -/
def envDetailFail : RunEnv where
  apiKey := some "sk-test"
  listing := .ok [failingArticle]
  today := 739053

/-! ## Theorems -/

/-- `dby` is monotone. -/
theorem dby_mono {y y' : Nat} (h : y ≤ y') : dby y ≤ dby y' := by
  induction y', h using Nat.le_induction with
  | base => exact le_refl _
  | succ m hm ih =>
    have hstep : dby m ≤ dby (m + 1) := by unfold dby; omega
    omega

/-- A year has at least 365 days. -/
theorem dby_succ (y : Nat) (h : 1 ≤ y) : dby y + 365 ≤ dby (y + 1) := by
  unfold dby
  omega

/-- `dby` at a year written as a position inside the leap cycles (the
year after `a` 400-year cycles, `b` centuries, `c` 4-year cycles and `d`
plain years). -/
theorem dby_year_eq (a b c d : Nat) (hb : b ≤ 3) (hc : c ≤ 24) (hd : d ≤ 3) :
    dby (a * 400 + 1 + b * 100 + c * 4 + d) =
      146097 * a + 36524 * b + 1461 * c + 365 * d := by
  unfold dby
  omega

/-- `dby` at the last year of a 4-year cycle (the correction case
`n1 == 4` of `_ord2ymd`). -/
theorem dby_cycle4_last (a b c : Nat) (hb : b ≤ 3) (hc : c ≤ 23) :
    dby (a * 400 + b * 100 + c * 4 + 4) =
      146097 * a + 36524 * b + 1461 * c + 1095 := by
  unfold dby
  omega

/-- `dby` just after the last year of a 4-year cycle. -/
theorem dby_cycle4_next (a b c : Nat) (hb : b ≤ 3) (hc : c ≤ 23) :
    dby (a * 400 + b * 100 + c * 4 + 5) =
      146097 * a + 36524 * b + 1461 * c + 1461 := by
  unfold dby
  omega

/-- `dby` at the last year of a 400-year cycle (the correction case
`n100 == 4` of `_ord2ymd`). -/
theorem dby_cycle400_last (a : Nat) :
    dby (a * 400 + 400) = 146097 * a + 145731 := by
  unfold dby
  omega

/-- `dby` just after the last year of a 400-year cycle. -/
theorem dby_cycle400_next (a : Nat) :
    dby (a * 400 + 401) = 146097 * a + 146097 := by
  unfold dby
  omega

/-- `yearOfOrdinal n` is the calendar year containing ordinal `n`: the
year's days-before count lies strictly below `n`, and `n` is within the
year. -/
theorem yearOfOrdinal_char (n : Nat) (h : 1 ≤ n) :
    1 ≤ yearOfOrdinal n ∧ dby (yearOfOrdinal n) < n ∧ n ≤ dby (yearOfOrdinal n + 1) := by
  simp only [yearOfOrdinal]
  set m := n - 1 with hm
  set n400 := m / 146097 with h400
  set r1 := m % 146097 with hr1
  set n100 := r1 / 36524 with h100
  set r2 := r1 % 36524 with hr2
  set n4 := r2 / 1461 with h4
  set r3 := r2 % 1461 with hr3
  set n1 := r3 / 365 with h1
  split
  · rename_i hcase
    rcases hcase with hc | hc
    · -- `n1 == 4`: December 31st of the last year of a 4-year cycle
      rw [hc]
      have e1 : n400 * 400 + 1 + n100 * 100 + n4 * 4 + 4 - 1 =
          n400 * 400 + n100 * 100 + n4 * 4 + 4 := by omega
      rw [e1]
      have hb : n100 ≤ 3 := by omega
      have hcc : n4 ≤ 23 := by omega
      rw [dby_cycle4_last n400 n100 n4 hb hcc]
      have e2 : n400 * 400 + n100 * 100 + n4 * 4 + 4 + 1 =
          n400 * 400 + n100 * 100 + n4 * 4 + 5 := by omega
      rw [e2, dby_cycle4_next n400 n100 n4 hb hcc]
      omega
    · -- `n100 == 4`: December 31st of the last year of a 400-year cycle
      rw [hc]
      have hc4 : n4 = 0 := by omega
      have hc1 : n1 = 0 := by omega
      rw [hc4, hc1]
      have e1 : n400 * 400 + 1 + 4 * 100 + 0 * 4 + 0 - 1 = n400 * 400 + 400 := by omega
      rw [e1]
      rw [dby_cycle400_last n400]
      have e2 : n400 * 400 + 400 + 1 = n400 * 400 + 401 := by omega
      rw [e2, dby_cycle400_next n400]
      omega
  · rename_i hcase
    push_neg at hcase
    obtain ⟨hc1, hc2⟩ := hcase
    have hb : n100 ≤ 3 := by omega
    have hcc : n4 ≤ 24 := by omega
    have hd : n1 ≤ 3 := by omega
    rw [dby_year_eq n400 n100 n4 n1 hb hcc hd]
    have hs := dby_succ (n400 * 400 + 1 + n100 * 100 + n4 * 4 + n1) (by omega)
    rw [dby_year_eq n400 n100 n4 n1 hb hcc hd] at hs
    omega

/-- The calendar year of an ordinal is determined by the
days-before-year bounds. -/
theorem yearOfOrdinal_eq_of (t Y : Nat) (h1 : dby Y < t) (h2 : t ≤ dby (Y + 1)) :
    yearOfOrdinal t = Y := by
  have ht : 1 ≤ t := by omega
  obtain ⟨hz1, hz2, hz3⟩ := yearOfOrdinal_char t ht
  rcases Nat.lt_trichotomy (yearOfOrdinal t) Y with hlt | heq | hgt
  · have : dby (yearOfOrdinal t + 1) ≤ dby Y := dby_mono (by omega)
    omega
  · exact heq
  · have : dby (Y + 1) ≤ dby (yearOfOrdinal t) := dby_mono (by omega)
    omega

/-- The Monday starting ISO week 1 falls on a Monday (ordinals that are
`1 mod 7`) and its Thursday is within the first seven days of the
year. -/
theorem isoweek1monday_char (y : Nat) :
    isoweek1monday y % 7 = 1 ∧ dby y + 1 ≤ isoweek1monday y + 3 ∧
      isoweek1monday y + 3 ≤ dby y + 7 := by
  simp only [isoweek1monday]
  split
  · omega
  · omega

/-- The year and week computed by CPython's `isocalendar` agree with the
ISO-8601 characterisation through the Thursday of the containing week. -/
theorem isocalendar_iso (n : Nat) (h : 1 ≤ n) :
    ((isocalendar n).1, (isocalendar n).2.1) = isoYearWeekSpec n := by
  obtain ⟨hy1, hy2, hy3⟩ := yearOfOrdinal_char n h
  obtain ⟨ha1, ha2, ha3⟩ := isoweek1monday_char (yearOfOrdinal n)
  obtain ⟨hb1, hb2, hb3⟩ := isoweek1monday_char (yearOfOrdinal n - 1)
  obtain ⟨hc1, hc2, hc3⟩ := isoweek1monday_char (yearOfOrdinal n + 1)
  have hlen : dby (yearOfOrdinal n) + 365 ≤ dby (yearOfOrdinal n + 1) := dby_succ _ hy1
  have hlen2 := dby_succ (yearOfOrdinal n + 1) (by omega)
  have hw1 : isoweek1monday 1 = 1 := by decide
  simp only [isocalendar, isoYearWeekSpec, thursdayOf]
  split_ifs with h1 h2
  · -- `week < 0`: the date belongs to the last week of the previous ISO year
    have hY2 : 2 ≤ yearOfOrdinal n := by
      by_contra hcon
      have he : yearOfOrdinal n = 1 := by omega
      rw [he, hw1] at h1
      omega
    have hlen' := dby_succ (yearOfOrdinal n - 1) (by omega)
    rw [Nat.sub_add_cancel (by omega : 1 ≤ yearOfOrdinal n)] at hlen'
    have hYt : yearOfOrdinal (n + 3 - (n - 1) % 7) = yearOfOrdinal n - 1 := by
      apply yearOfOrdinal_eq_of
      · omega
      · rw [Nat.sub_add_cancel (by omega : 1 ≤ yearOfOrdinal n)]
        omega
    dsimp only
    rw [hYt]
    simp only [Prod.mk.injEq]
    refine ⟨trivial, ?_⟩
    omega
  · -- `week >= 52` spilling into week 1 of the next ISO year
    have hYt : yearOfOrdinal (n + 3 - (n - 1) % 7) = yearOfOrdinal n + 1 := by
      apply yearOfOrdinal_eq_of
      · omega
      · omega
    dsimp only
    rw [hYt]
    simp only [Prod.mk.injEq]
    refine ⟨trivial, ?_⟩
    omega
  · -- ordinary week of the current ISO year
    rw [not_and_or] at h2
    have hYt : yearOfOrdinal (n + 3 - (n - 1) % 7) = yearOfOrdinal n := by
      apply yearOfOrdinal_eq_of
      · omega
      · rcases h2 with h2 | h2 <;> omega
    dsimp only
    rw [hYt]
    simp only [Prod.mk.injEq]
    refine ⟨trivial, ?_⟩
    omega

/-- Case analysis of the retry loop: the result is either the exhaustion
message, or comes from the first decisive attempt (a success, stripped,
or a non-connectivity error, formatted) within the remaining window. -/
theorem translateLoop_cases (oracle : Nat → AttemptOutcome) :
    ∀ (remaining attempt delay : Nat) (sleeps : List Nat),
      (translateLoop oracle remaining attempt delay sleeps).1 = exhaustedMsg ∨
      (∃ k, attempt ≤ k ∧ k < attempt + remaining ∧
        ((∃ c, oracle k = .success c ∧
            (translateLoop oracle remaining attempt delay sleeps).1 = strip c) ∨
         (∃ e, oracle k = .otherError e ∧
            (translateLoop oracle remaining attempt delay sleeps).1 = unexpectedErrMsg e)))
  | 0, _, _, _ => Or.inl rfl
  | remaining + 1, attempt, delay, sleeps => by
    rcases h : oracle attempt with c | _ | e
    · exact Or.inr ⟨attempt, le_refl _, by omega,
        Or.inl ⟨c, h, by simp [translateLoop, h]⟩⟩
    · have ih := translateLoop_cases oracle remaining (attempt + 1) (delay * 2)
        (sleeps ++ [delay])
      have hstep : translateLoop oracle (remaining + 1) attempt delay sleeps =
          translateLoop oracle remaining (attempt + 1) (delay * 2) (sleeps ++ [delay]) := by
        simp [translateLoop, h]
      rcases ih with h1 | ⟨k, hk1, hk2, hk3⟩
      · exact Or.inl (hstep ▸ h1)
      · exact Or.inr ⟨k, by omega, by omega, hstep ▸ hk3⟩
    · exact Or.inr ⟨attempt, le_refl _, by omega,
        Or.inr ⟨e, h, by simp [translateLoop, h]⟩⟩

/-- C2: for every client and input text (and any behaviour of the
translation endpoint), `translate_text_with_openai` returns a string and
never propagates an exception: the result is one of the fixed messages,
the stripped content of a successful attempt, or the formatted message of
a non-connectivity exception raised on some attempt (never more than the
3 bounded attempts). -/
theorem translate_always_returns (client : Bool) (text : String)
    (oracle : Nat → AttemptOutcome) :
    (translate_text_with_openai client text oracle).1 = noTextMsg ∨
    (translate_text_with_openai client text oracle).1 = noClientMsg ∨
    (translate_text_with_openai client text oracle).1 = exhaustedMsg ∨
    (∃ k, k < 3 ∧ ∃ c, oracle k = .success c ∧
      (translate_text_with_openai client text oracle).1 = strip c) ∨
    (∃ k, k < 3 ∧ ∃ e, oracle k = .otherError e ∧
      (translate_text_with_openai client text oracle).1 = unexpectedErrMsg e) := by
  unfold translate_text_with_openai
  split
  · exact Or.inl rfl
  · split
    · exact Or.inr (Or.inl rfl)
    · rcases translateLoop_cases oracle 3 0 2 [] with h | ⟨k, _, hk2, hk3⟩
      · exact Or.inr (Or.inr (Or.inl h))
      · rcases hk3 with ⟨c, hc, hr⟩ | ⟨e, he, hr⟩
        · exact Or.inr (Or.inr (Or.inr (Or.inl ⟨k, by omega, c, hc, hr⟩)))
        · exact Or.inr (Or.inr (Or.inr (Or.inr ⟨k, by omega, e, he, hr⟩)))

/-- C3: if the endpoint raises a connectivity-class failure on attempts 1
and 2 (0-based indices 0 and 1) and succeeds on attempt 3, the translator
returns the stripped successful translation and the backoff sleeps
performed are exactly 2 seconds then 4 seconds. -/
theorem translate_backoff_retry (text : String) (oracle : Nat → AttemptOutcome)
    (c : String) (htext : ¬ strip text = "")
    (h0 : oracle 0 = .connError) (h1 : oracle 1 = .connError)
    (h2 : oracle 2 = .success c) :
    translate_text_with_openai true text oracle = (strip c, [2, 4]) := by
  simp only [translate_text_with_openai, if_neg htext]
  simp [translateLoop, h0, h1, h2]

/-- Witness for C3 at a concrete text and endpoint behaviour. -/
theorem translate_backoff_retry_witness :
    translate_text_with_openai true "hello"
      (fun k => if k < 2 then .connError else .success " 안녕하세요 ") =
      (strip " 안녕하세요 ", [2, 4]) :=
  translate_backoff_retry "hello" _ " 안녕하세요 " (by decide) rfl rfl rfl

/-- C7: if the first attempt raises a non-connectivity exception, the
translator returns at once with the message embedding that error: no
further attempt is consulted and no backoff sleep happens (the sleep list
is empty). -/
theorem translate_no_retry_on_other_error (text : String)
    (oracle : Nat → AttemptOutcome) (e : String) (htext : ¬ strip text = "")
    (h0 : oracle 0 = .otherError e) :
    translate_text_with_openai true text oracle = (unexpectedErrMsg e, []) := by
  simp only [translate_text_with_openai, if_neg htext]
  simp [translateLoop, h0]

/-- Witness for C7 at a concrete text and endpoint behaviour. -/
theorem translate_no_retry_on_other_error_witness :
    translate_text_with_openai true "hello" (fun _ => .otherError "boom") =
      (unexpectedErrMsg "boom", []) :=
  translate_no_retry_on_other_error "hello" _ "boom" (by decide) rfl


/-- C9: for any current date (as an ordinal, at least 8 so that a week
earlier is still a date), the week resolver returns exactly the ISO-8601
(year, week) pair of the date seven days earlier, year-boundary
adjustment included. -/
theorem get_previous_week_info_iso (today : Nat) (h : 8 ≤ today) :
    get_previous_week_info today = isoYearWeekSpec (today - 7) := by
  have hiso := isocalendar_iso (today - 7) (by omega)
  simp only [get_previous_week_info]
  exact hiso

/-- Witness for C9 at 2023-01-08 (ordinal 738528), whose previous week
date 2023-01-01 falls in ISO week 52 of the previous ISO year 2022. -/
theorem get_previous_week_info_iso_witness :
    8 ≤ 738528 ∧ get_previous_week_info 738528 = isoYearWeekSpec (738528 - 7) ∧
      get_previous_week_info 738528 = (2022, 52) :=
  ⟨by omega, get_previous_week_info_iso 738528 (by omega), by decide⟩

/-- Indexing a flattened list of blocks: each block occurs contiguously,
in order, inside the flattening. -/
theorem flatten_decomp {α : Type} (L : List (List α)) (i : Nat) (hi : i < L.length) :
    ∃ pre post, L.flatten = pre ++ L.get ⟨i, hi⟩ ++ post := by
  induction L generalizing i with
  | nil => simp at hi
  | cons x xs ih =>
    cases i with
    | zero => exact ⟨[], xs.flatten, by simp⟩
    | succ j =>
      obtain ⟨pre, post, hp⟩ := ih j (by simpa using hi)
      exact ⟨x ++ pre, post, by simp [hp]⟩

/-- `entryBlocks` produces one block per (truncated) article. -/
theorem entryBlocks_length (client : Bool) (l : List Article) :
    (entryBlocks client l).length = l.length := by
  simp [entryBlocks]

/-- The block at position `j` of `entryBlocks` is the processing of the
article at position `j`, with the 0-based index `j` as its rank seed. -/
theorem entryBlocks_get (client : Bool) (l : List Article) (j : Nat)
    (hj : j < l.length) (hj2 : j < (entryBlocks client l).length) :
    (entryBlocks client l).get ⟨j, hj2⟩ = processArticle client j (l.get ⟨j, hj⟩) := by
  simp [entryBlocks, List.getElem_enum]

/-- An article with no `h3` node: the `IndexError` of `[0]` is caught and
only the failure block is written. -/
theorem processArticle_no_h3 (client : Bool) (i : Nat) (a : Article)
    (hh : a.h3s.head? = none) :
    processArticle client i a = [failBlock i (entryError "list index out of range")] := by
  simp [processArticle, hh]

/-- An article whose `h3` lacks the link or the title: the `ValueError`
is caught and only the failure block is written. -/
theorem processArticle_no_link (client : Bool) (i : Nat) (a : Article) (h3 : H3Elem)
    (hh : a.h3s.head? = some h3) (hemp : (h3.hrefs.isEmpty || h3.texts.isEmpty) = true) :
    processArticle client i a =
      [failBlock i (entryError "h3 태그 안에서 링크나 제목을 찾을 수 없습니다.")] := by
  simp only [processArticle, hh]
  rw [if_pos hemp]

/-- An article whose detail fetch raises: the title and link lines are
already written, then the caught exception appends the failure block. -/
theorem processArticle_detail_error (client : Bool) (i : Nat) (a : Article) (h3 : H3Elem)
    (e : String) (hh : a.h3s.head? = some h3) (h1 : h3.hrefs.isEmpty = false)
    (h2 : h3.texts.isEmpty = false) (hd : a.detail = .error e) :
    processArticle client i a =
      ["--- " ++ toString (i + 1) ++ ". " ++ strip (String.join h3.texts) ++ " ---\n",
       "Link: " ++ (base_url ++ h3.hrefs.headD "") ++ "\n\n",
       failBlock i (entryError e)] := by
  simp [processArticle, hh, h1, h2, hd]

/-- An article whose detail page has no abstract node. -/
theorem processArticle_no_abstract (client : Bool) (i : Nat) (a : Article) (h3 : H3Elem)
    (page : DetailPage) (hh : a.h3s.head? = some h3) (h1 : h3.hrefs.isEmpty = false)
    (h2 : h3.texts.isEmpty = false) (hd : a.detail = .ok page)
    (hab : page.abstracts.head? = none) :
    processArticle client i a =
      ["--- " ++ toString (i + 1) ++ ". " ++ strip (String.join h3.texts) ++ " ---\n",
       "Link: " ++ (base_url ++ h3.hrefs.headD "") ++ "\n\n",
       "초록을 찾을 수 없습니다.\n\n"] := by
  simp [processArticle, hh, h1, h2, hd, hab]

/-- An article whose whole processing succeeds. -/
theorem processArticle_success (client : Bool) (i : Nat) (a : Article) (h3 : H3Elem)
    (page : DetailPage) (ab : String) (hh : a.h3s.head? = some h3)
    (h1 : h3.hrefs.isEmpty = false) (h2 : h3.texts.isEmpty = false)
    (hd : a.detail = .ok page) (hab : page.abstracts.head? = some ab) :
    processArticle client i a =
      ["--- " ++ toString (i + 1) ++ ". " ++ strip (String.join h3.texts) ++ " ---\n",
       "Link: " ++ (base_url ++ h3.hrefs.headD "") ++ "\n\n",
       "## Abstract (Original)\n", strip ab ++ "\n\n", "## 초록 (Korean)\n",
       (translate_text_with_openai client (strip ab) a.transOracle).1 ++ "\n\n"] := by
  simp [processArticle, hh, h1, h2, hd, hab]

/-- Every entry block, failed or not, opens with its 1-based rank
`i + 1`. -/
theorem processArticle_head_rank (client : Bool) (i : Nat) (a : Article) :
    ∃ t rest, processArticle client i a =
      ("--- " ++ toString (i + 1) ++ ". " ++ t) :: rest := by
  have hfb : ∀ m, failBlock i m =
      "--- " ++ toString (i + 1) ++ ". " ++ ("항목 처리 실패 ---\n" ++ m ++ "\n\n") := by
    intro m
    simp only [failBlock, String.append_assoc]
  cases hh : a.h3s.head? with
  | none =>
    refine ⟨"항목 처리 실패 ---\n" ++ entryError "list index out of range" ++ "\n\n", [], ?_⟩
    rw [processArticle_no_h3 client i a hh, hfb]
  | some h3 =>
    by_cases hemp : (h3.hrefs.isEmpty || h3.texts.isEmpty) = true
    · refine ⟨"항목 처리 실패 ---\n" ++
        entryError "h3 태그 안에서 링크나 제목을 찾을 수 없습니다." ++ "\n\n", [], ?_⟩
      rw [processArticle_no_link client i a h3 hh hemp, hfb]
    · simp only [Bool.or_eq_true, not_or, Bool.not_eq_true] at hemp
      obtain ⟨h1, h2⟩ := hemp
      refine ⟨strip (String.join h3.texts) ++ " ---\n", ?_⟩
      cases hd : a.detail with
      | error e =>
        refine ⟨["Link: " ++ (base_url ++ h3.hrefs.headD "") ++ "\n\n",
          failBlock i (entryError e)], ?_⟩
        rw [processArticle_detail_error client i a h3 e hh h1 h2 hd]
        simp [String.append_assoc]
      | ok page =>
        cases hab : page.abstracts.head? with
        | none =>
          refine ⟨["Link: " ++ (base_url ++ h3.hrefs.headD "") ++ "\n\n",
            "초록을 찾을 수 없습니다.\n\n"], ?_⟩
          rw [processArticle_no_abstract client i a h3 page hh h1 h2 hd hab]
          simp [String.append_assoc]
        | some ab =>
          refine ⟨["Link: " ++ (base_url ++ h3.hrefs.headD "") ++ "\n\n",
            "## Abstract (Original)\n", strip ab ++ "\n\n", "## 초록 (Korean)\n",
            (translate_text_with_openai client (strip ab) a.transOracle).1 ++ "\n\n"], ?_⟩
          rw [processArticle_success client i a h3 page ab hh h1 h2 hd hab]
          simp [String.append_assoc]

/-- With a configured client, a fetched listing and at least one article,
the run completes and the file is the header followed by the entry
blocks in listing order. -/
theorem scrape_completed (env : RunEnv) (arts : List Article)
    (hkey : setup_api env.apiKey = true) (hlist : env.listing = .ok arts)
    (hne : arts ≠ []) :
    ∃ hdr, scrape_and_translate_papers env =
      .completed (hdr ++ (entryBlocks true (arts.take num_papers_to_scrape)).flatten) := by
  have hemp : (arts.take num_papers_to_scrape).isEmpty = false := by
    cases arts with
    | nil => exact absurd rfl hne
    | cons x xs => simp [num_papers_to_scrape]
  refine ⟨headerWrites
      (week_str (get_previous_week_info env.today).1 (get_previous_week_info env.today).2)
      ("https://huggingface.co/papers/week/" ++
        week_str (get_previous_week_info env.today).1 (get_previous_week_info env.today).2), ?_⟩
  simp [scrape_and_translate_papers, hkey, hlist, hemp]

/-- C1 counterexample: with the credential absent from the environment
(and a perfectly scrapable listing), the run aborts at startup instead of
proceeding to scrape. -/
theorem run_aborts_without_key_counterexample :
    scrape_and_translate_papers envNoKey = RunResult.abortedNoKey := rfl

/-- C1 amended: if the credential is absent, `setup_api` yields no client
and the run aborts at startup, before any scraping; the translator
itself, were it called with an unconfigured client on a non-blank text,
would return the fixed "client not configured" message. -/
theorem run_aborts_without_key (env : RunEnv) (text : String)
    (oracle : Nat → AttemptOutcome) (hkey : setup_api env.apiKey = false)
    (htext : ¬ strip text = "") :
    scrape_and_translate_papers env = RunResult.abortedNoKey ∧
    (translate_text_with_openai false text oracle).1 = noClientMsg := by
  constructor
  · simp [scrape_and_translate_papers, hkey]
  · simp [translate_text_with_openai, htext]

/-- Witness for C1 (amended) at the concrete key-less environment. -/
theorem run_aborts_without_key_witness :
    scrape_and_translate_papers envNoKey = RunResult.abortedNoKey ∧
    (translate_text_with_openai false "hello" (fun _ => .connError)).1 = noClientMsg :=
  run_aborts_without_key envNoKey "hello" (fun _ => .connError) rfl (by decide)

/-- C4: an exception while processing one entry (here: the detail fetch
raising) is caught at the per-entry boundary: the run still completes,
the failing entry contributes a failure block, and every entry of the
truncated listing — the subsequent ones included — still appears
contiguously in the report. -/
theorem per_entry_error_isolation (env : RunEnv) (arts : List Article) (i : Nat)
    (e : String) (hkey : setup_api env.apiKey = true) (hlist : env.listing = .ok arts)
    (hi : i < (arts.take num_papers_to_scrape).length)
    (hdetail : ((arts.take num_papers_to_scrape).get ⟨i, hi⟩).detail = .error e) :
    ∃ file, scrape_and_translate_papers env = .completed file ∧
      (∃ m, failBlock i m ∈
        processArticle true i ((arts.take num_papers_to_scrape).get ⟨i, hi⟩)) ∧
      ∀ j (hj : j < (arts.take num_papers_to_scrape).length),
        ∃ pre post, file =
          pre ++ processArticle true j ((arts.take num_papers_to_scrape).get ⟨j, hj⟩) ++ post := by
  have hne : arts ≠ [] := by
    intro hcon
    subst hcon
    simp at hi
  obtain ⟨hdr, hrun⟩ := scrape_completed env arts hkey hlist hne
  refine ⟨_, hrun, ?_, ?_⟩
  · cases hh : ((arts.take num_papers_to_scrape).get ⟨i, hi⟩).h3s.head? with
    | none =>
      exact ⟨entryError "list index out of range",
        by rw [processArticle_no_h3 true i _ hh]; simp⟩
    | some h3 =>
      by_cases hemp : (h3.hrefs.isEmpty || h3.texts.isEmpty) = true
      · exact ⟨entryError "h3 태그 안에서 링크나 제목을 찾을 수 없습니다.",
          by rw [processArticle_no_link true i _ h3 hh hemp]; simp⟩
      · simp only [Bool.or_eq_true, not_or, Bool.not_eq_true] at hemp
        exact ⟨entryError e,
          by rw [processArticle_detail_error true i _ h3 e hh hemp.1 hemp.2 hdetail]; simp⟩
  · intro j hj
    have hj2 : j < (entryBlocks true (arts.take num_papers_to_scrape)).length := by
      rw [entryBlocks_length]
      exact hj
    obtain ⟨pre, post, hp⟩ :=
      flatten_decomp (entryBlocks true (arts.take num_papers_to_scrape)) j hj2
    rw [entryBlocks_get true _ j hj hj2] at hp
    refine ⟨hdr ++ pre, post, ?_⟩
    rw [hp]
    simp [List.append_assoc]

/-- Witness for C4: the first entry's detail fetch raises while the
second entry is processed and present. -/
theorem per_entry_error_isolation_witness :
    ∃ file, scrape_and_translate_papers envEntryFailure = .completed file ∧
      (∃ m, failBlock 0 m ∈ processArticle true 0
        (([failingArticle, sampleArticle].take num_papers_to_scrape).get
          ⟨0, by decide⟩)) ∧
      ∀ j (hj : j < ([failingArticle, sampleArticle].take num_papers_to_scrape).length),
        ∃ pre post, file = pre ++ processArticle true j
          (([failingArticle, sampleArticle].take num_papers_to_scrape).get ⟨j, hj⟩) ++ post :=
  per_entry_error_isolation envEntryFailure [failingArticle, sampleArticle] 0 "boom"
    rfl rfl (by decide) rfl

/-- C5: with a configured client and a fetched listing, the report is the
header followed by one block per article of the listing truncated to the
cap: there are at most `num_papers_to_scrape = 10` blocks, block `j` is
the processing of the `j`-th article node, and it opens with the 1-based
rank `j + 1` — so ranks are consecutive and the order is document
order. -/
theorem report_cap_and_order (env : RunEnv) (arts : List Article)
    (hkey : setup_api env.apiKey = true) (hlist : env.listing = .ok arts)
    (hne : arts ≠ []) :
    ∃ hdr, scrape_and_translate_papers env =
        .completed (hdr ++ (entryBlocks true (arts.take num_papers_to_scrape)).flatten) ∧
      (entryBlocks true (arts.take num_papers_to_scrape)).length ≤ num_papers_to_scrape ∧
      ∀ j (hj : j < (entryBlocks true (arts.take num_papers_to_scrape)).length),
        ∃ (hj2 : j < (arts.take num_papers_to_scrape).length) (t : String)
          (rest : List String),
          (entryBlocks true (arts.take num_papers_to_scrape)).get ⟨j, hj⟩ =
            processArticle true j ((arts.take num_papers_to_scrape).get ⟨j, hj2⟩) ∧
          (entryBlocks true (arts.take num_papers_to_scrape)).get ⟨j, hj⟩ =
            ("--- " ++ toString (j + 1) ++ ". " ++ t) :: rest := by
  obtain ⟨hdr, hrun⟩ := scrape_completed env arts hkey hlist hne
  refine ⟨hdr, hrun, ?_, ?_⟩
  · rw [entryBlocks_length, List.length_take]
    exact Nat.min_le_left _ _
  · intro j hj
    have hj2 : j < (arts.take num_papers_to_scrape).length := by
      rwa [entryBlocks_length] at hj
    obtain ⟨t, rest, hr⟩ :=
      processArticle_head_rank true j ((arts.take num_papers_to_scrape).get ⟨j, hj2⟩)
    exact ⟨hj2, t, rest, entryBlocks_get true _ j hj2 hj,
      by rw [entryBlocks_get true _ j hj2 hj, hr]⟩

/-- Witness for C5 at a concrete two-article environment. -/
theorem report_cap_and_order_witness :
    ∃ hdr, scrape_and_translate_papers envEntryFailure =
        .completed (hdr ++
          (entryBlocks true ([failingArticle, sampleArticle].take num_papers_to_scrape)).flatten) ∧
      (entryBlocks true ([failingArticle, sampleArticle].take num_papers_to_scrape)).length ≤
        num_papers_to_scrape ∧
      ∀ j (hj : j <
          (entryBlocks true ([failingArticle, sampleArticle].take num_papers_to_scrape)).length),
        ∃ (hj2 : j < ([failingArticle, sampleArticle].take num_papers_to_scrape).length)
          (t : String) (rest : List String),
          (entryBlocks true ([failingArticle, sampleArticle].take num_papers_to_scrape)).get
              ⟨j, hj⟩ =
            processArticle true j
              (([failingArticle, sampleArticle].take num_papers_to_scrape).get ⟨j, hj2⟩) ∧
          (entryBlocks true ([failingArticle, sampleArticle].take num_papers_to_scrape)).get
              ⟨j, hj⟩ =
            ("--- " ++ toString (j + 1) ++ ". " ++ t) :: rest :=
  report_cap_and_order envEntryFailure [failingArticle, sampleArticle] rfl rfl
    (List.cons_ne_nil _ _)

/-- C6 counterexample: an entry whose detail fetch raises still has its
rank/title/link lines in the report, followed by the failure block — the
failure block does not replace them. -/
theorem failure_block_not_in_place_counterexample :
    scrape_and_translate_papers envDetailFail = RunResult.completed
      ["Hugging Face 주간 인기 논문 Top 10 (2024-W23) - 번역본\n",
       "출처: https://huggingface.co/papers/week/2024-W23\n\n",
       "--- 1. Broken Paper ---\n",
       "Link: https://huggingface.co/papers/2401.00002\n\n",
       "--- 1. 항목 처리 실패 ---\n항목 처리 중 오류 발생: boom\n\n"] := by
  decide

/-- C6 amended: for an entry that errors during scraping, a single
failure block naming the error is written, but in addition to — not in
place of — the fields already written before the error: when title and
link extraction succeeded and the detail fetch then raises, the entry's
writes are exactly the rank/title line, the link line, and then the
failure block. -/
theorem failure_block_after_partial_writes (client : Bool) (i : Nat) (a : Article)
    (h3 : H3Elem) (e : String) (hh : a.h3s.head? = some h3)
    (h1 : h3.hrefs.isEmpty = false) (h2 : h3.texts.isEmpty = false)
    (hd : a.detail = .error e) :
    processArticle client i a =
      ["--- " ++ toString (i + 1) ++ ". " ++ strip (String.join h3.texts) ++ " ---\n",
       "Link: " ++ (base_url ++ h3.hrefs.headD "") ++ "\n\n",
       failBlock i (entryError e)] :=
  processArticle_detail_error client i a h3 e hh h1 h2 hd

/-- Witness for C6 (amended) at a concrete failing article. -/
theorem failure_block_after_partial_writes_witness :
    processArticle true 0 failingArticle =
      ["--- " ++ toString (0 + 1) ++ ". " ++ strip (String.join ["Broken Paper"]) ++ " ---\n",
       "Link: " ++ (base_url ++ (["/papers/2401.00002"] : List String).headD "") ++ "\n\n",
       failBlock 0 (entryError "boom")] :=
  failure_block_after_partial_writes true 0 failingArticle
    ⟨["/papers/2401.00002"], ["Broken Paper"]⟩ "boom" rfl rfl rfl rfl

/-- C8: a listing with zero article nodes ends the run normally with the
"no papers" outcome: no output file is produced and no exception-style
fatal outcome is reported. -/
theorem no_papers_normal_end (env : RunEnv) (hkey : setup_api env.apiKey = true)
    (hlist : env.listing = .ok ([] : List Article)) :
    scrape_and_translate_papers env = RunResult.noPapers ∧
    outputFile (scrape_and_translate_papers env) = none ∧
    ∀ m, scrape_and_translate_papers env ≠ RunResult.fatalRequestError m := by
  have hrun : scrape_and_translate_papers env = RunResult.noPapers := by
    simp [scrape_and_translate_papers, hkey, hlist]
  refine ⟨hrun, by rw [hrun]; rfl, fun m h => ?_⟩
  rw [hrun] at h
  exact RunResult.noConfusion h

/-- Witness for C8 at the concrete empty-listing environment. -/
theorem no_papers_normal_end_witness :
    scrape_and_translate_papers envNoArticles = RunResult.noPapers ∧
    outputFile (scrape_and_translate_papers envNoArticles) = none ∧
    ∀ m, scrape_and_translate_papers envNoArticles ≠ RunResult.fatalRequestError m :=
  no_papers_normal_end envNoArticles rfl rfl

/-- C10: for every entry whose extraction succeeds, the link line written
to the report is the fixed base URL concatenated with the extracted href,
with no condition on the href's shape — an already-absolute href gets the
base prepended all the same. -/
theorem unconditional_link_concat (client : Bool) (i : Nat) (a : Article) (h3 : H3Elem)
    (hh : a.h3s.head? = some h3) (h1 : h3.hrefs.isEmpty = false)
    (h2 : h3.texts.isEmpty = false) :
    ∃ t rest, processArticle client i a =
      t :: ("Link: " ++ (base_url ++ h3.hrefs.headD "") ++ "\n\n") :: rest := by
  cases hd : a.detail with
  | error e => exact ⟨_, _, processArticle_detail_error client i a h3 e hh h1 h2 hd⟩
  | ok page =>
    cases hab : page.abstracts.head? with
    | none => exact ⟨_, _, processArticle_no_abstract client i a h3 page hh h1 h2 hd hab⟩
    | some ab => exact ⟨_, _, processArticle_success client i a h3 page ab hh h1 h2 hd hab⟩

/-- Witness for C10 at an article whose href is already an absolute URL:
the written link is the base URL glued onto it. -/
theorem unconditional_link_concat_witness :
    ∃ t rest, processArticle true 0 absoluteHrefArticle =
      t :: ("Link: " ++
        (base_url ++ (["https://arxiv.org/abs/2401.00003"] : List String).headD "") ++
        "\n\n") :: rest :=
  unconditional_link_concat true 0 absoluteHrefArticle
    ⟨["https://arxiv.org/abs/2401.00003"], ["Absolute Paper"]⟩ rfl rfl rfl

end Scraper
